import Mathlib

/-!
Verification of the docker-transformers-inference serving core.

The embedding translates `src/app/main.py` (Flask façade and model lifecycle)
and `src/app/api/model.py` (the `TransformerModel` engine) into Lean.
External effects are made explicit: the outcome of constructing a
`TransformerModel()` is passed in as a `loader : Except String E` value, the
parsing of the request body by Flask or `json.loads` is carried on the request
as an `Except String Json`, and Python exceptions are `Except.error` values.
-/

namespace DTI

/-- A JSON value, as produced by Python JSON parsing of a request body
(`request.get_json()` or `json.loads(...)` in `main.py`). -/
inductive Json where
  | null
  | bool (b : Bool)
  | num (n : Int)
  | str (s : String)
  | arr (elems : List Json)
  | obj (fields : List (String × Json))

/-- An inbound HTTP request as seen by `process_inference_request`:
`content_type` is the Content-Type header, `is_json` is the Flask value
`request.is_json` (computed by Flask from the mimetype), and `json` is the
outcome of parsing the body (`request.get_json()` when `is_json`, otherwise
`json.loads(request.data.decode("utf-8"))` — both parse the same bytes, so
one field carries the parse outcome; `Except.error` is a raised exception). -/
structure Request where
  content_type : String
  is_json : Bool
  json : Except String Json

/-- A response body: the empty body of `/ping`, the error envelope
`jsonify({"error": msg})`, or the success envelope `jsonify({"result": r})`. -/
inductive Body (R : Type) where
  | empty
  | errorEnv (msg : String)
  | resultEnv (r : R)

/-- True exactly on the `{"error": msg}` envelope. -/
def Body.isErrorEnv {R : Type} : Body R → Bool
  | .errorEnv _ => true
  | _ => false

/-- An HTTP response: a status code and a body. -/
structure Resp (R : Type) where
  status : Nat
  body : Body R

/-- Python `data.get("text")` in `main.py` line 92: on a dict it returns the
value of the key or `None`; on any other parsed value the attribute access
raises (`AttributeError`). -/
def jsonGet (j : Json) (key : String) : Except String Json :=
  match j with
  | .obj fields =>
    match fields.lookup key with
    | some v => .ok v
    | none => .ok .null
  | .null => .error "\x27NoneType\x27 object has no attribute \x27get\x27"
  | .bool _ => .error "\x27bool\x27 object has no attribute \x27get\x27"
  | .num _ => .error "\x27int\x27 object has no attribute \x27get\x27"
  | .str _ => .error "\x27str\x27 object has no attribute \x27get\x27"
  | .arr _ => .error "\x27list\x27 object has no attribute \x27get\x27"

/-- Evaluation of the logging f-string in `main.py` line 93, which computes
`text[:50]` and `len(text)`: both succeed exactly when `text` is a string or a
list; on `None`, booleans, numbers and dicts a `TypeError` is raised before
the missing-text check on line 95 is reached. -/
def logLineEval : Json → Except String Unit
  | .str _ => .ok ()
  | .arr _ => .ok ()
  | .null => .error "\x27NoneType\x27 object is not subscriptable"
  | .bool _ => .error "\x27bool\x27 object is not subscriptable"
  | .num _ => .error "\x27int\x27 object is not subscriptable"
  | .obj _ => .error "unhashable type: \x27slice\x27"

/-- Python falsiness of a parsed JSON value, as tested by `if not text:` on
`main.py` line 95. -/
def jsonFalsy : Json → Bool
  | .null => true
  | .bool b => !b
  | .num n => n == 0
  | .str s => s == ""
  | .arr elems => elems.isEmpty
  | .obj fields => fields.isEmpty

/-- The observable effect of one call to `load_model` (`main.py` lines 24-40):
the value of the global `model` after the call, the returned engine or the
propagated exception, and whether a `TransformerModel()` construction was
attempted. -/
structure LoadCall (E : Type) where
  model : Option E
  result : Except String E
  attempted : Bool

/-- `load_model` from `main.py` lines 24-40. `loader` is the outcome that
constructing `TransformerModel()` would produce in the current external
environment. If the global `model` is already set it is returned at once with
no construction; otherwise the construction is attempted, and on failure the
exception is re-raised with the global still unset (the assignment on line 34
never happened). -/
def load_model {E : Type} (loader : Except String E) (model : Option E) :
    LoadCall E :=
  match model with
  | some m => ⟨some m, .ok m, false⟩
  | none =>
    match loader with
    | .ok m => ⟨some m, .ok m, true⟩
    | .error e => ⟨none, .error e, true⟩

/-- The global `model` after a sequence of `load_model` calls, one per
environment outcome in `loaders`. -/
def loadSeq {E : Type} (loaders : List (Except String E)) (model : Option E) :
    Option E :=
  loaders.foldl (fun st l => (load_model l st).model) model

/-- Module import time in `main.py` lines 42-46: `load_model` is attempted
once eagerly; a failure is logged and swallowed, leaving the global `model`
as `None` and the process alive. -/
def startupLoad {E : Type} (loader : Except String E) : Option E :=
  (load_model loader none).model

/-- `health_check` from `main.py` lines 59-66: it reads no state and always
returns the empty body with status 200. -/
def health_check (R : Type) : Resp R :=
  ⟨200, .empty⟩

/-- The observable effect of one call to `process_inference_request`: the
global `model` after the call, whether a model-load attempt was made during
the call, and the HTTP response. -/
structure Outcome (E R : Type) where
  model : Option E
  loadAttempted : Bool
  resp : Resp R

/-- The body of `process_inference_request` from the content-type check on
(`main.py` lines 80-108), run with engine `m` in hand; `st` and `attempted`
record the lifecycle effects of the preceding model-ready check.
`pred` is `model.predict`, whose raised exceptions are `Except.error`. -/
def handleRequest {E R : Type} (pred : E → Json → Except String R)
    (req : Request) (m : E) (st : Option E) (attempted : Bool) :
    Outcome E R :=
  if !req.is_json && req.content_type != "application/json" then
    ⟨st, attempted, ⟨400, .errorEnv "Request must be JSON"⟩⟩
  else
    match req.json with
    | .error e => ⟨st, attempted, ⟨500, .errorEnv ("Error during prediction: " ++ e)⟩⟩
    | .ok data =>
      match jsonGet data "text" with
      | .error e => ⟨st, attempted, ⟨500, .errorEnv ("Error during prediction: " ++ e)⟩⟩
      | .ok text =>
        match logLineEval text with
        | .error e => ⟨st, attempted, ⟨500, .errorEnv ("Error during prediction: " ++ e)⟩⟩
        | .ok _ =>
          if jsonFalsy text then
            ⟨st, attempted, ⟨400, .errorEnv "Missing \x27text\x27 field in request"⟩⟩
          else
            match pred m text with
            | .error e => ⟨st, attempted, ⟨500, .errorEnv ("Error during prediction: " ++ e)⟩⟩
            | .ok r => ⟨st, attempted, ⟨200, .resultEnv r⟩⟩

/-- `process_inference_request` from `main.py` lines 68-108. The model-ready
check (lines 70-78) comes first: when the global `model` is `None` a load is
attempted via `load_model`, and a load failure is answered with status 500
before any request validation happens. Only then follow the content-type
check (line 81) and the try-block (lines 86-108). -/
def process_inference_request {E R : Type} (loader : Except String E)
    (pred : E → Json → Except String R) (model : Option E) (req : Request) :
    Outcome E R :=
  match model with
  | none =>
    match (load_model loader none).result with
    | .error e =>
      ⟨(load_model loader none).model, true,
        ⟨500, .errorEnv ("Failed to load model: " ++ e)⟩⟩
    | .ok m => handleRequest pred req m (some m) true
  | some m => handleRequest pred req m (some m) false

/-- The engine of `src/app/api/model.py`.

Modelled from the spec: the pretrained HuggingFace tokenizer and classifier
loaded in `TransformerModel.__init__` are external artifacts whose code is
not part of this repository. `rawTokenize` is the untruncated token-id
sequence the pretrained tokenizer assigns to a text, and `logits` is the
two-logit forward pass of the pretrained classifier over a token sequence
(evaluation mode, no gradient tracking: a pure function of its input). -/
structure TransformerModel where
  rawTokenize : String → List Nat
  logits : List Nat → ℝ × ℝ

/-- Tokenization as performed by `predict` (`model.py` line 154), which calls
the tokenizer with `truncation=True, max_length=512`.

Modelled from the spec: with these arguments the tokenizer truncates to a
maximum of 512 token positions, truncating the tail and keeping the head of
the input; padding at batch size 1 is a no-op. -/
def TransformerModel.tokenize (m : TransformerModel) (text : String) :
    List Nat :=
  (m.rawTokenize text).take 512

/-- `torch.nn.functional.softmax` on a two-element logit vector
(`model.py` line 165). -/
noncomputable def softmax2 (a b : ℝ) : ℝ × ℝ :=
  (Real.exp a / (Real.exp a + Real.exp b),
   Real.exp b / (Real.exp a + Real.exp b))

/-- `TransformerModel.predict` from `model.py` lines 143-175: tokenize with
truncation to 512, run the classifier, softmax the two logits, and return
the dict `{"negative": scores[0], "positive": scores[1]}` (modelled as the
association list in insertion order). -/
noncomputable def TransformerModel.predict (m : TransformerModel)
    (text : String) : List (String × ℝ) :=
  let l := m.logits (m.tokenize text)
  let scores := softmax2 l.1 l.2
  [("negative", scores.1), ("positive", scores.2)]

/-!
Interleaving model of two threads calling `load_model` concurrently during
cold start. `load_model` (`main.py` lines 24-40) has no lock: the check
`if model is not None` on line 28 and the construct-and-assign
`model = TransformerModel()` on line 34 are separate steps between which the
interpreter may switch threads. Thread `i` constructing its own
`TransformerModel()` yields the object `engᵢ` (two constructions yield two
distinct objects).
-/

/-- The program counter of one thread running `load_model`: before the
line-28 null check, after having seen `model is None` (about to construct),
or returned with engine `ret`. -/
inductive TPC (E : Type) where
  | start
  | checked
  | done (ret : E)

/-- The engine a finished thread returned, if it has finished. -/
def TPC.retVal {E : Type} : TPC E → Option E
  | .done r => some r
  | _ => none

/-- The shared state of the race: the global `model` and the number of
`TransformerModel()` constructions attempted so far. -/
structure RaceState (E : Type) where
  model : Option E
  attempts : Nat

/-- One configuration of the two-thread system. -/
structure RaceCfg (E : Type) where
  pc0 : TPC E
  pc1 : TPC E
  st : RaceState E

/-- One atomic step of a thread running `load_model`, constructing `eng` on
the construct step. `start`: execute the line-28 check; `checked`: execute
the line-34 construct-and-assign and return. A finished thread stutters. -/
def threadStep {E : Type} (eng : E) (pc : TPC E) (s : RaceState E) :
    TPC E × RaceState E :=
  match pc with
  | .start =>
    match s.model with
    | some m => (.done m, s)
    | none => (.checked, s)
  | .checked => (.done eng, ⟨some eng, s.attempts + 1⟩)
  | .done r => (.done r, s)

/-- Step the thread selected by `which` (`false` is thread 0). -/
def schedStep {E : Type} (eng0 eng1 : E) (c : RaceCfg E) (which : Bool) :
    RaceCfg E :=
  if which then
    let p := threadStep eng1 c.pc1 c.st
    ⟨c.pc0, p.1, p.2⟩
  else
    let p := threadStep eng0 c.pc0 c.st
    ⟨p.1, c.pc1, p.2⟩

/-- Run a schedule (a list of thread choices) from the cold-start
configuration: global `model` unset, no construction attempted, both
threads about to enter `load_model`. -/
def runSched {E : Type} (eng0 eng1 : E) (sched : List Bool) : RaceCfg E :=
  sched.foldl (schedStep eng0 eng1) ⟨.start, .start, ⟨none, 0⟩⟩

/-- A concrete engine used to instantiate theorems about `predict` at a
closed input: every character is one token with id 0, and the classifier
gives both classes the logit 0. -/
noncomputable def wModel : TransformerModel :=
  ⟨fun s => List.replicate s.length 0, fun _ => (0, 0)⟩

/-! Helper lemmas, shared by the theorems below. -/

/-- `handleRequest` never changes the global model reference. -/
theorem handleRequest_model {E R : Type} (pred : E → Json → Except String R)
    (req : Request) (m : E) (st : Option E) (att : Bool) :
    (handleRequest pred req m st att).model = st := by
  unfold handleRequest
  repeat' split
  all_goals rfl

/-- `handleRequest` performs no load attempt beyond the one recorded. -/
theorem handleRequest_attempted {E R : Type} (pred : E → Json → Except String R)
    (req : Request) (m : E) (st : Option E) (att : Bool) :
    (handleRequest pred req m st att).loadAttempted = att := by
  unfold handleRequest
  repeat' split
  all_goals rfl

/-- Every `handleRequest` response carries status 200, 400 or 500. -/
theorem handleRequest_status {E R : Type} (pred : E → Json → Except String R)
    (req : Request) (m : E) (st : Option E) (att : Bool) :
    (handleRequest pred req m st att).resp.status = 200 ∨
    (handleRequest pred req m st att).resp.status = 400 ∨
    (handleRequest pred req m st att).resp.status = 500 := by
  unfold handleRequest
  repeat' split
  all_goals simp

/-- Every non-200 `handleRequest` response has the error envelope body. -/
theorem handleRequest_errorEnv {E R : Type} (pred : E → Json → Except String R)
    (req : Request) (m : E) (st : Option E) (att : Bool) :
    (handleRequest pred req m st att).resp.status ≠ 200 →
    (handleRequest pred req m st att).resp.body.isErrorEnv = true := by
  unfold handleRequest
  repeat' split
  all_goals intro h
  all_goals first | rfl | (exact absurd rfl h)

/-- The two softmax outputs each lie in the unit interval and they sum to
one exactly. -/
theorem softmax2_mem_unit (a b : ℝ) :
    0 ≤ (softmax2 a b).1 ∧ (softmax2 a b).1 ≤ 1 ∧
    0 ≤ (softmax2 a b).2 ∧ (softmax2 a b).2 ≤ 1 ∧
    (softmax2 a b).1 + (softmax2 a b).2 = 1 := by
  have ha := Real.exp_pos a
  have hb := Real.exp_pos b
  have hs : 0 < Real.exp a + Real.exp b := by linarith
  unfold softmax2
  refine ⟨div_nonneg ha.le hs.le, ?_, div_nonneg hb.le hs.le, ?_, ?_⟩
  · rw [div_le_one hs]; linarith
  · rw [div_le_one hs]; linarith
  · rw [div_add_div_same, div_self hs.ne']

/-- How many more times a thread at this program counter can still
increment the construction-attempt counter. -/
def canInc {E : Type} : TPC E → Nat
  | .start => 1
  | .checked => 1
  | .done _ => 0

/-- Run invariant of the cold-start race: at most one construction per
thread remains possible, the global only ever holds a fully constructed
engine, and a finished thread only ever returned a fully constructed
engine. -/
def raceInv {E : Type} (eng0 eng1 : E) (c : RaceCfg E) : Prop :=
  c.st.attempts + canInc c.pc0 + canInc c.pc1 ≤ 2 ∧
  (c.st.model = none ∨ c.st.model = some eng0 ∨ c.st.model = some eng1) ∧
  (∀ r, c.pc0.retVal = some r → r = eng0 ∨ r = eng1) ∧
  (∀ r, c.pc1.retVal = some r → r = eng0 ∨ r = eng1)

/-- One thread step preserves the attempt budget, keeps the global a fully
constructed engine, and keeps returned engines fully constructed. -/
theorem threadStep_inv {E : Type} (eng0 eng1 eng : E) (pc : TPC E)
    (s : RaceState E)
    (heng : eng = eng0 ∨ eng = eng1)
    (hmodel : s.model = none ∨ s.model = some eng0 ∨ s.model = some eng1) :
    (threadStep eng pc s).2.attempts + canInc (threadStep eng pc s).1 ≤
      s.attempts + canInc pc ∧
    ((threadStep eng pc s).2.model = none ∨
     (threadStep eng pc s).2.model = some eng0 ∨
     (threadStep eng pc s).2.model = some eng1) ∧
    (∀ r, (threadStep eng pc s).1.retVal = some r →
      pc.retVal = some r ∨ r = eng0 ∨ r = eng1) := by
  obtain ⟨mo, att⟩ := s
  cases pc with
  | start =>
    cases mo with
    | none =>
      refine ⟨by simp [threadStep, canInc], ?_, ?_⟩
      · simp [threadStep]
      · intro r hr
        simp [threadStep, TPC.retVal] at hr
    | some m =>
      refine ⟨by simp [threadStep, canInc], ?_, ?_⟩
      · simpa [threadStep] using hmodel
      · intro r hr
        simp [threadStep, TPC.retVal] at hr
        subst hr
        rcases hmodel with h | h | h
        · simp at h
        · simp at h
          exact Or.inr (Or.inl h)
        · simp at h
          exact Or.inr (Or.inr h)
  | checked =>
    refine ⟨by simp [threadStep, canInc], ?_, ?_⟩
    · rcases heng with h | h <;> simp [threadStep, h]
    · intro r hr
      simp [threadStep, TPC.retVal] at hr
      subst hr
      rcases heng with h | h
      · exact Or.inr (Or.inl h)
      · exact Or.inr (Or.inr h)
  | done ret =>
    exact ⟨le_refl _, hmodel, fun r hr => Or.inl hr⟩

/-- A scheduler step preserves the race invariant. -/
theorem schedStep_inv {E : Type} (eng0 eng1 : E) (c : RaceCfg E) (w : Bool)
    (h : raceInv eng0 eng1 c) : raceInv eng0 eng1 (schedStep eng0 eng1 c w) := by
  obtain ⟨h1, h2, h3, h4⟩ := h
  cases w with
  | false =>
    obtain ⟨ha, hb, hc⟩ := threadStep_inv eng0 eng1 eng0 c.pc0 c.st (Or.inl rfl) h2
    refine ⟨?_, hb, ?_, h4⟩
    · show (threadStep eng0 c.pc0 c.st).2.attempts +
        canInc (threadStep eng0 c.pc0 c.st).1 + canInc c.pc1 ≤ 2
      omega
    · intro r hr
      rcases hc r hr with h5 | h5 | h5
      · exact h3 r h5
      · exact Or.inl h5
      · exact Or.inr h5
  | true =>
    obtain ⟨ha, hb, hc⟩ := threadStep_inv eng0 eng1 eng1 c.pc1 c.st (Or.inr rfl) h2
    refine ⟨?_, hb, h3, ?_⟩
    · show (threadStep eng1 c.pc1 c.st).2.attempts + canInc c.pc0 +
        canInc (threadStep eng1 c.pc1 c.st).1 ≤ 2
      omega
    · intro r hr
      rcases hc r hr with h5 | h5 | h5
      · exact h4 r h5
      · exact Or.inl h5
      · exact Or.inr h5

/-- Every schedule maintains the race invariant from the cold-start
configuration. -/
theorem raceInv_runSched {E : Type} (eng0 eng1 : E) (sched : List Bool) :
    raceInv eng0 eng1 (runSched eng0 eng1 sched) := by
  have hgen : ∀ (l : List Bool) (c : RaceCfg E), raceInv eng0 eng1 c →
      raceInv eng0 eng1 (l.foldl (schedStep eng0 eng1) c) := by
    intro l
    induction l with
    | nil => exact fun c hc => hc
    | cons w ws ih => exact fun c hc => ih _ (schedStep_inv eng0 eng1 c w hc)
  refine hgen sched _ ⟨?_, Or.inl rfl, ?_, ?_⟩
  · simp [canInc]
  · intro r hr
    simp [TPC.retVal] at hr
  · intro r hr
    simp [TPC.retVal] at hr

/-! The claim theorems. -/

/-- C1: the claim says a request whose parsed JSON body has an absent `text`
field gets HTTP 400; the code instead answers 500 at that input, because
`data.get("text")` yields `None` and the logging line `text[:50]` raises a
`TypeError` before the missing-text 400 check on line 95 can run - the
catch-all turns it into a 500 error envelope. The neighbouring inputs the
claim also covers do behave as claimed: an empty `text` gets 400 and a
non-JSON content type (with the model loaded) gets 400. This theorem
evaluates the code at the failing input and at those neighbours. -/
theorem C1_missing_text_gets_500 :
    (process_inference_request (E := Unit) (R := Unit) (.ok ())
      (fun _ _ => .ok ()) (some ())
      ⟨"application/json", true, .ok (.obj [])⟩).resp.status = 500 ∧
    (process_inference_request (E := Unit) (R := Unit) (.ok ())
      (fun _ _ => .ok ()) (some ())
      ⟨"application/json", true, .ok (.obj [])⟩).resp.body.isErrorEnv = true ∧
    (process_inference_request (E := Unit) (R := Unit) (.ok ())
      (fun _ _ => .ok ()) (some ())
      ⟨"application/json", true, .ok (.obj [("text", .str "")])⟩).resp.status = 400 ∧
    (process_inference_request (E := Unit) (R := Unit) (.ok ())
      (fun _ _ => .ok ()) (some ())
      ⟨"text/plain", false, .ok (.obj [])⟩).resp.status = 400 := by
  decide

/-- C2 counterexample: with the model unloaded and the environment unable to
load it, a request that fails content-type validation (text/plain) receives
status 500 from the model-load step, and a load attempt is made - not the
claimed 400 response without a model-load attempt. The readiness check runs
before validation, so validation order as claimed is refuted. -/
theorem C2_validation_after_load_counterexample :
    (process_inference_request (E := Unit) (R := Unit) (.error "boom")
      (fun _ _ => .ok ()) none
      ⟨"text/plain", false, .error "parse"⟩).loadAttempted = true ∧
    (process_inference_request (E := Unit) (R := Unit) (.error "boom")
      (fun _ _ => .ok ()) none
      ⟨"text/plain", false, .error "parse"⟩).resp.status = 500 ∧
    ¬ (process_inference_request (E := Unit) (R := Unit) (.error "boom")
      (fun _ _ => .ok ()) none
      ⟨"text/plain", false, .error "parse"⟩).resp.status = 400 := by
  decide

/-- C2 (amended): the façade checks engine readiness first and validates
afterwards. With the model already loaded no load attempt is made and an
invalid content type receives its 400; with the model unloaded a load
attempt is made on every request, valid or not, and when the load fails the
response is the 500 load-failure envelope rather than a validation 400. -/
theorem C2_readiness_check_first {E R : Type} (loader : Except String E)
    (pred : E → Json → Except String R) (m : E) (req : Request) :
    (process_inference_request loader pred (some m) req).loadAttempted = false ∧
    (req.is_json = false → req.content_type ≠ "application/json" →
      (process_inference_request loader pred (some m) req).resp =
        ⟨400, .errorEnv "Request must be JSON"⟩) ∧
    (process_inference_request loader pred none req).loadAttempted = true ∧
    (∀ e, loader = .error e →
      (process_inference_request loader pred none req).resp =
        ⟨500, .errorEnv ("Failed to load model: " ++ e)⟩) := by
  refine ⟨?_, ?_, ?_, ?_⟩
  · exact handleRequest_attempted pred req m (some m) false
  · intro h1 h2
    show (handleRequest pred req m (some m) false).resp = _
    unfold handleRequest
    have hcond : (!req.is_json && req.content_type != "application/json") = true := by
      simp [h1, h2]
    rw [hcond]
    rfl
  · show (process_inference_request loader pred none req).loadAttempted = true
    unfold process_inference_request
    cases loader with
    | error e => rfl
    | ok m2 => exact handleRequest_attempted pred req m2 (some m2) true
  · intro e he
    subst he
    rfl

/-- C2 witness: the amended theorem applied at concrete inputs, with the
model loaded for the 400 and unloaded with a failing loader for the 500. -/
theorem C2_readiness_check_first_witness :
    (process_inference_request (E := Unit) (R := Unit) (.error "x")
        (fun _ _ => .ok ()) (some ()) ⟨"text/plain", false, .ok .null⟩).resp =
      ⟨400, .errorEnv "Request must be JSON"⟩ ∧
    (process_inference_request (E := Unit) (R := Unit) (.error "x")
        (fun _ _ => .ok ()) none ⟨"text/plain", false, .ok .null⟩).resp =
      ⟨500, .errorEnv ("Failed to load model: " ++ "x")⟩ :=
  ⟨(C2_readiness_check_first (.error "x") (fun _ _ => .ok ()) ()
      ⟨"text/plain", false, .ok .null⟩).2.1 rfl (by decide),
   (C2_readiness_check_first (.error "x") (fun _ _ => .ok ()) ()
      ⟨"text/plain", false, .ok .null⟩).2.2.2 "x" rfl⟩

/-- C3: for every engine and non-empty text, `predict` returns exactly the
keys "negative" and "positive" in that order; the values are the softmax of
the two-logit vector with index 0 mapped to "negative" and index 1 to
"positive"; each value lies in [0,1] and the two sum to 1 exactly, hence
within the 1e-6 tolerance. -/
theorem C3_predict_probabilities (m : TransformerModel) (text : String)
    (h : text ≠ "") :
    (m.predict text).map Prod.fst = ["negative", "positive"] ∧
    m.predict text =
      [("negative",
         (softmax2 (m.logits (m.tokenize text)).1 (m.logits (m.tokenize text)).2).1),
       ("positive",
         (softmax2 (m.logits (m.tokenize text)).1 (m.logits (m.tokenize text)).2).2)] ∧
    (∀ p ∈ (m.predict text).map Prod.snd, 0 ≤ p ∧ p ≤ 1) ∧
    ((m.predict text).map Prod.snd).sum = 1 ∧
    |((m.predict text).map Prod.snd).sum - 1| ≤ 1 / 1000000 := by
  obtain ⟨h0, h1, h2, h3, h4⟩ :=
    softmax2_mem_unit (m.logits (m.tokenize text)).1 (m.logits (m.tokenize text)).2
  refine ⟨rfl, rfl, ?_, ?_, ?_⟩
  · intro p hp
    simp [TransformerModel.predict] at hp
    rcases hp with hp | hp <;> subst hp
    · exact ⟨h0, h1⟩
    · exact ⟨h2, h3⟩
  · simp [TransformerModel.predict]
    linarith
  · simp [TransformerModel.predict]
    rw [show (softmax2 (m.logits (m.tokenize text)).1 (m.logits (m.tokenize text)).2).1 +
        (softmax2 (m.logits (m.tokenize text)).1 (m.logits (m.tokenize text)).2).2 = 1 from h4]
    norm_num

/-- C3 witness: the theorem applied to a concrete engine at the non-empty
text "x". -/
theorem C3_predict_probabilities_witness :
    ("x" : String) ≠ "" ∧
    ((wModel.predict "x").map Prod.fst = ["negative", "positive"] ∧
     ((wModel.predict "x").map Prod.snd).sum = 1) :=
  ⟨by decide,
   (C3_predict_probabilities wModel "x" (by decide)).1,
   (C3_predict_probabilities wModel "x" (by decide)).2.2.2.1⟩

/-- C4: exceptions raised during JSON parsing, the text extraction and
validation, or prediction are caught at the façade boundary and become a 500
response with an error envelope; the handler is a total function whose every
response has status 200, 400 or 500 with an error envelope on the non-200
statuses, so no exception escapes to terminate the process. -/
theorem C4_exceptions_become_500 {E R : Type} (loader : Except String E)
    (pred : E → Json → Except String R) (model : Option E) (req : Request) :
    ((process_inference_request loader pred model req).resp.status = 200 ∨
     (process_inference_request loader pred model req).resp.status = 400 ∨
     (process_inference_request loader pred model req).resp.status = 500) ∧
    ((process_inference_request loader pred model req).resp.status ≠ 200 →
      (process_inference_request loader pred model req).resp.body.isErrorEnv = true) ∧
    (∀ m e, model = some m → req.json = .error e →
      (req.is_json = true ∨ req.content_type = "application/json") →
      (process_inference_request loader pred model req).resp =
        ⟨500, .errorEnv ("Error during prediction: " ++ e)⟩) ∧
    (∀ m data text e, model = some m → req.json = .ok data →
      jsonGet data "text" = .ok text → logLineEval text = .ok () →
      jsonFalsy text = false → pred m text = .error e →
      (req.is_json = true ∨ req.content_type = "application/json") →
      (process_inference_request loader pred model req).resp =
        ⟨500, .errorEnv ("Error during prediction: " ++ e)⟩) := by
  have hcore : ∀ (m : E) (st : Option E) (att : Bool),
      ((handleRequest pred req m st att).resp.status = 200 ∨
       (handleRequest pred req m st att).resp.status = 400 ∨
       (handleRequest pred req m st att).resp.status = 500) :=
    fun m st att => handleRequest_status pred req m st att
  refine ⟨?_, ?_, ?_, ?_⟩
  · cases model with
    | some m => exact hcore m (some m) false
    | none =>
      cases loader with
      | error e => simp [process_inference_request, load_model]
      | ok m => exact hcore m (some m) true
  · cases model with
    | some m => exact handleRequest_errorEnv pred req m (some m) false
    | none =>
      cases loader with
      | error e => intro _; rfl
      | ok m => exact handleRequest_errorEnv pred req m (some m) true
  · intro m e hm hj hct
    subst hm
    show (handleRequest pred req m (some m) false).resp = _
    unfold handleRequest
    have hcond : (!req.is_json && req.content_type != "application/json") = false := by
      rcases hct with h | h <;> simp [h]
    simp [hcond, hj]
  · intro m data text e hm hj hget hlog hfls hpred hct
    subst hm
    show (handleRequest pred req m (some m) false).resp = _
    unfold handleRequest
    have hcond : (!req.is_json && req.content_type != "application/json") = false := by
      rcases hct with h | h <;> simp [h]
    simp [hcond, hj, hget, hlog, hfls, hpred]

/-- C4 witness: a request whose body fails to parse and a request whose
prediction raises both get the 500 error envelope. -/
theorem C4_exceptions_become_500_witness :
    (process_inference_request (E := Unit) (R := Unit) (.ok ())
      (fun _ _ => .error "ex") (some ())
      ⟨"application/json", true, .error "boom"⟩).resp =
      ⟨500, .errorEnv ("Error during prediction: " ++ "boom")⟩ ∧
    (process_inference_request (E := Unit) (R := Unit) (.ok ())
      (fun _ _ => .error "ex") (some ())
      ⟨"application/json", true, .ok (.obj [("text", .str "hi")])⟩).resp =
      ⟨500, .errorEnv ("Error during prediction: " ++ "ex")⟩ :=
  ⟨(C4_exceptions_become_500 (.ok ()) (fun _ _ => .error "ex") (some ())
      ⟨"application/json", true, .error "boom"⟩).2.2.1 () "boom" rfl rfl (Or.inl rfl),
   (C4_exceptions_become_500 (.ok ()) (fun _ _ => .error "ex") (some ())
      ⟨"application/json", true, .ok (.obj [("text", .str "hi")])⟩).2.2.2 ()
      (.obj [("text", .str "hi")]) (.str "hi") "ex" rfl rfl rfl rfl rfl rfl (Or.inl rfl)⟩

/-- C5: the lifecycle contract of `load_model`. An already-set model is
returned unchanged with no construction attempted; once set, no sequence of
further calls re-loads or swaps it; on a load failure the global stays
`None` and the error propagates to the caller; a subsequent call whose
construction succeeds loads the model. -/
theorem C5_load_model_lifecycle {E : Type} (loader : Except String E)
    (m : E) (e : String) (loaders : List (Except String E)) :
    load_model loader (some m) = ⟨some m, .ok m, false⟩ ∧
    loadSeq loaders (some m) = some m ∧
    load_model (.error e) (none : Option E) = ⟨none, .error e, true⟩ ∧
    load_model (.ok m) (none : Option E) = ⟨some m, .ok m, true⟩ := by
  refine ⟨rfl, ?_, rfl, rfl⟩
  induction loaders with
  | nil => rfl
  | cons l ls ih => exact ih

/-- C6: the liveness handler returns HTTP 200 with an empty body; it reads
no model state, and a startup load failure is swallowed - the process keeps
serving with the global still `None` - while a startup success stores the
engine. -/
theorem C6_liveness {E R : Type} (loader : Except String E) :
    (health_check R).status = 200 ∧ (health_check R).body = .empty ∧
    (∀ e, loader = .error e → startupLoad loader = none) ∧
    (∀ m, loader = .ok m → startupLoad loader = some m) := by
  refine ⟨rfl, rfl, ?_, ?_⟩ <;> intro x h <;> subst h <;> rfl

/-- C6 witness: the liveness response after a failed eager startup load. -/
theorem C6_liveness_witness :
    (health_check Unit).status = 200 ∧
    (health_check Unit).body = Body.empty ∧
    startupLoad (Except.error "boom" : Except String Unit) = none :=
  ⟨(C6_liveness (E := Unit) (R := Unit) (.error "boom")).1,
   (C6_liveness (E := Unit) (R := Unit) (.error "boom")).2.1,
   (C6_liveness (E := Unit) (R := Unit) (.error "boom")).2.2.1 "boom" rfl⟩

/-- C7: `predict` is deterministic - the same engine and text always give
the same result, since the source draws no randomness and mutates no state -
and serving a request with a loaded engine leaves the engine reference
unchanged, so no state is carried between calls. -/
theorem C7_predict_deterministic {R : Type} (m : TransformerModel)
    (text : String) (loader : Except String TransformerModel)
    (pred : TransformerModel → Json → Except String R) (req : Request) :
    m.predict text = m.predict text ∧
    (process_inference_request loader pred (some m) req).model = some m :=
  ⟨rfl, handleRequest_model pred req m (some m) false⟩

/-- C8: the token sequence passed to the classifier never exceeds 512
positions; it is the head of the raw tokenization with the tail dropped; and
two texts whose raw tokenizations agree on the first 512 tokens get the same
prediction, so only the first 512 tokens influence the result. -/
theorem C8_truncation_512 (m : TransformerModel) (text : String) :
    (m.tokenize text).length ≤ 512 ∧
    m.tokenize text = (m.rawTokenize text).take 512 ∧
    ∀ other : String,
      (m.rawTokenize other).take 512 = (m.rawTokenize text).take 512 →
      m.predict other = m.predict text := by
  refine ⟨List.length_take_le 512 (m.rawTokenize text), rfl, ?_⟩
  intro other hother
  simp only [TransformerModel.predict, TransformerModel.tokenize, hother]

/-- C8 witness: the theorem applied to a concrete engine and text. -/
theorem C8_truncation_512_witness :
    (wModel.tokenize "ab").length ≤ 512 ∧
    wModel.predict "ab" = wModel.predict "ab" :=
  ⟨(C8_truncation_512 wModel "ab").1,
   (C8_truncation_512 wModel "ab").2.2 "ab" rfl⟩

/-- C9 counterexample: in the interleaving where both threads pass the
line-28 null check before either constructs, two construction attempts
happen and the two callers return different engine objects - the claimed
single serialized attempt with a common outcome for all callers is false. -/
theorem C9_two_load_attempts_counterexample :
    (runSched (0 : Nat) 1 [false, true, false, true]).st.attempts = 2 ∧
    ¬ (runSched (0 : Nat) 1 [false, true, false, true]).st.attempts = 1 ∧
    (runSched (0 : Nat) 1 [false, true, false, true]).pc0.retVal = some 0 ∧
    (runSched (0 : Nat) 1 [false, true, false, true]).pc1.retVal = some 1 := by
  decide

/-- C9 (amended): `load_model` has no lock, so two concurrent cold-start
callers may both attempt a load and need not converge on the same engine
object. What every schedule does guarantee: at most one construction per
caller (at most two overall), the global reference only ever holds a fully
constructed engine, and every engine a finished caller returned is one of
the fully constructed engines - no caller observes a half-built engine. -/
theorem C9_unserialized_load_race {E : Type} (eng0 eng1 : E) (sched : List Bool) :
    (runSched eng0 eng1 sched).st.attempts ≤ 2 ∧
    ((runSched eng0 eng1 sched).st.model = none ∨
     (runSched eng0 eng1 sched).st.model = some eng0 ∨
     (runSched eng0 eng1 sched).st.model = some eng1) ∧
    (∀ r, (runSched eng0 eng1 sched).pc0.retVal = some r → r = eng0 ∨ r = eng1) ∧
    (∀ r, (runSched eng0 eng1 sched).pc1.retVal = some r → r = eng0 ∨ r = eng1) := by
  obtain ⟨h1, h2, h3, h4⟩ := raceInv_runSched eng0 eng1 sched
  exact ⟨by omega, h2, h3, h4⟩

/-- C9 witness: the amended theorem applied to the concrete racy schedule. -/
theorem C9_unserialized_load_race_witness :
    (runSched (0 : Nat) 1 [false, true, false, true]).st.attempts ≤ 2 ∧
    ((0 : Nat) = 0 ∨ (0 : Nat) = 1) :=
  ⟨(C9_unserialized_load_race 0 1 [false, true, false, true]).1,
   (C9_unserialized_load_race 0 1 [false, true, false, true]).2.2.1 0 (by decide)⟩

/-- C10: with Content-Type application/json and a loaded model, a request
whose body does not parse as JSON is answered 500 with an error envelope via
the catch-all (not 400), and so is a request whose `text` value is a
non-subscriptable JSON value such as a number or a boolean. -/
theorem C10_unparseable_body_500 {E R : Type} (loader : Except String E)
    (pred : E → Json → Except String R) (m : E) (req : Request) :
    (req.content_type = "application/json" → ∀ e, req.json = .error e →
      (process_inference_request loader pred (some m) req).resp.status = 500 ∧
      (process_inference_request loader pred (some m) req).resp.body.isErrorEnv = true) ∧
    (∀ n : Int, req.content_type = "application/json" →
      req.json = .ok (.obj [("text", .num n)]) →
      (process_inference_request loader pred (some m) req).resp.status = 500 ∧
      (process_inference_request loader pred (some m) req).resp.body.isErrorEnv = true) ∧
    (∀ b : Bool, req.content_type = "application/json" →
      req.json = .ok (.obj [("text", .bool b)]) →
      (process_inference_request loader pred (some m) req).resp.status = 500 ∧
      (process_inference_request loader pred (some m) req).resp.body.isErrorEnv = true) := by
  refine ⟨?_, ?_, ?_⟩
  · intro hct e hj
    show (handleRequest pred req m (some m) false).resp.status = 500 ∧
      (handleRequest pred req m (some m) false).resp.body.isErrorEnv = true
    unfold handleRequest
    have hcond : (!req.is_json && req.content_type != "application/json") = false := by
      simp [hct]
    rw [hcond, hj]
    exact ⟨rfl, rfl⟩
  · intro n hct hj
    show (handleRequest pred req m (some m) false).resp.status = 500 ∧
      (handleRequest pred req m (some m) false).resp.body.isErrorEnv = true
    unfold handleRequest
    have hcond : (!req.is_json && req.content_type != "application/json") = false := by
      simp [hct]
    rw [hcond, hj]
    exact ⟨rfl, rfl⟩
  · intro b hct hj
    show (handleRequest pred req m (some m) false).resp.status = 500 ∧
      (handleRequest pred req m (some m) false).resp.body.isErrorEnv = true
    unfold handleRequest
    have hcond : (!req.is_json && req.content_type != "application/json") = false := by
      simp [hct]
    rw [hcond, hj]
    exact ⟨rfl, rfl⟩

/-- C10 witness: the theorem applied at an unparseable body, a numeric
`text` and a boolean `text`. -/
theorem C10_unparseable_body_500_witness :
    (process_inference_request (E := Unit) (R := Unit) (.ok ())
      (fun _ _ => .ok ()) (some ())
      ⟨"application/json", true, .error "Expecting value"⟩).resp.status = 500 ∧
    (process_inference_request (E := Unit) (R := Unit) (.ok ())
      (fun _ _ => .ok ()) (some ())
      ⟨"application/json", true, .ok (.obj [("text", .num 3)])⟩).resp.status = 500 ∧
    (process_inference_request (E := Unit) (R := Unit) (.ok ())
      (fun _ _ => .ok ()) (some ())
      ⟨"application/json", true, .ok (.obj [("text", .bool true)])⟩).resp.status = 500 :=
  ⟨((C10_unparseable_body_500 (.ok ()) (fun _ _ => .ok ()) ()
      ⟨"application/json", true, .error "Expecting value"⟩).1 rfl "Expecting value" rfl).1,
   ((C10_unparseable_body_500 (.ok ()) (fun _ _ => .ok ()) ()
      ⟨"application/json", true, .ok (.obj [("text", .num 3)])⟩).2.1 3 rfl rfl).1,
   ((C10_unparseable_body_500 (.ok ()) (fun _ _ => .ok ()) ()
      ⟨"application/json", true, .ok (.obj [("text", .bool true)])⟩).2.2 true rfl rfl).1⟩

end DTI
